import Mathlib

/-!
Verification of the Titanic-Dataset-Chat-Agent repository.

This file is a shallow embedding of the three source modules
(`backend/agent.py`, `backend/main.py`, `frontend/app.py`) together with
proofs of the behavioural properties stated about them.

Modelling conventions:
* The LangChain agent call (`agent.invoke`) is abstracted as an
  `AgentBehavior`: it either raises an exception (carrying its message) or
  returns the result dictionary; either way it records the matplotlib
  figures the executed code created during the call.  Figures are values of
  an arbitrary type parameter `Fig` so provenance across calls is visible.
* The process-global matplotlib figure state is threaded explicitly as a
  `List Fig`; `plt.close('all')` replaces it by `[]`.
* Rendering the current figure to a base64 PNG string is abstracted as a
  function `render : List Fig → String`, and a failure inside the
  savefig/encode block as a boolean `captureFails`.
* Nullable dataframe columns are lists of `Option` values; pandas medians
  are rationals so that the even-length mean is exact.
-/

-- ─────────────────────────── backend/agent.py ───────────────────────────

/-- One intermediate step of the agent run: the tool invoked and the exact
source text given to it (`action.tool`, `action.tool_input`). -/
structure AgentStep where
  tool : String
  tool_input : String
  deriving DecidableEq, Repr

/-- Dictionary returned by `agent.invoke`: the final output (read with
`result.get("output", ...)`, so `none` models a missing key) and the list of
intermediate steps (`result.get("intermediate_steps", [])`). -/
structure AgentResult where
  output : Option String
  intermediate_steps : List AgentStep
  deriving DecidableEq, Repr

/-- Behaviour of one `agent.invoke` call: it either raises an exception with
message `msg` or returns an `AgentResult`; in both cases `figs` lists the
matplotlib figures created by code executed during this call. -/
inductive AgentBehavior (Fig : Type) where
  | raises (msg : String) (figs : List Fig)
  | returns (result : AgentResult) (figs : List Fig)

/-- Figures created during the call, whatever its outcome. -/
def AgentBehavior.figsCreated {Fig : Type} : AgentBehavior Fig → List Fig
  | .raises _ figs => figs
  | .returns _ figs => figs

/-- Response dictionary produced by `run_query`. -/
structure Response where
  text : String
  image : Option String
  code : Option String
  deriving DecidableEq, Repr

/-- Fixed apology template used by the `except` branch of `run_query`. -/
def apologyText (msg : String) : String :=
  "I encountered an issue processing that query. Please try rephrasing. (Error: "
    ++ msg ++ ")"

/-- Source text of the code snippets the agent executed, in execution order:
the `tool_input` of every intermediate step whose tool is the
`python_repl_ast` code-execution tool (the agent's only tool). -/
def executedSnippets (steps : List AgentStep) : List String :=
  (steps.filter (fun a => a.tool == "python_repl_ast")).map (fun a => a.tool_input)

/-- Aggregation of executed code performed by `run_query`:
newline-join of the executed snippets, `None` when there are none. -/
def extractCode (steps : List AgentStep) : Option String :=
  let code_blocks := executedSnippets steps
  if code_blocks.isEmpty then none else some (String.intercalate "\n" code_blocks)

/-- Embedding of `run_query(agent, question)`.  Its first statement
`plt.close('all')` discards whatever figure state (`_figState`) earlier calls
left behind, which is why the result never depends on that argument.  The
`try` around `agent.invoke` corresponds to the two `AgentBehavior` cases; on
an exception the apology response is returned at once (leaving this call's
figures open).  Otherwise, if any figure exists it is rendered — unless
`captureFails`, modelling an exception inside the savefig/encode block, which
is swallowed — and the figure state is closed in the `finally`. -/
def run_query {Fig : Type} (render : List Fig → String) (captureFails : Bool)
    (beh : AgentBehavior Fig) (_figState : List Fig) : Response × List Fig :=
  let cleared : List Fig := []
  match beh with
  | .raises msg figs =>
      ({ text := apologyText msg, image := none, code := none }, cleared ++ figs)
  | .returns result figs =>
      let answer_text := result.output.getD "I couldn't generate an answer."
      let generated_code := extractCode result.intermediate_steps
      let figState := cleared ++ figs
      if figState.isEmpty then
        ({ text := answer_text, image := none, code := generated_code }, figState)
      else
        ({ text := answer_text,
           image := if captureFails then none else some (render figState),
           code := generated_code }, [])

/-- Sequence of `run_query` calls in one process, threading the process-global
matplotlib figure state from each call to the next. -/
def runSeq {Fig : Type} (render : List Fig → String) :
    List (AgentBehavior Fig × Bool) → List Fig → List Response
  | [], _ => []
  | (beh, captureFails) :: rest, figState =>
      let step := run_query render captureFails beh figState
      step.1 :: runSeq render rest step.2

-- ─────────────────────────── backend/main.py ───────────────────────────

/-- Whitespace characters removed by Python's `str.strip()` (ASCII range). -/
def isPySpace (c : Char) : Bool :=
  c == ' ' || c == '\t' || c == '\n' || c == '\r' || c == '\x0b' || c == '\x0c'

/-- Embedding of Python's `str.strip()`: drop whitespace from both ends. -/
def pyStrip (s : String) : String :=
  String.mk (((s.toList.dropWhile isPySpace).reverse.dropWhile isPySpace).reverse)

/-- A string is blank when it is empty or consists only of whitespace. -/
def isBlank (q : String) : Bool := q.toList.all isPySpace

/-- Middle element (odd length) or mean of the two middle elements (even
length) of an already sorted list — the standard even/odd median rule. -/
def medianRule (s : List ℚ) : ℚ :=
  if s.length % 2 = 1 then s.getD (s.length / 2) 0
  else (s.getD (s.length / 2 - 1) 0 + s.getD (s.length / 2) 0) / 2

/-- Embedding of pandas `Series.median()` over the present (non-null)
values: sort ascending and apply the even/odd rule; `none` when there are no
values (pandas yields NaN there, which `fillna` then ignores). -/
def medianQ (l : List ℚ) : Option ℚ :=
  if l.isEmpty then none else some (medianRule (l.insertionSort (· ≤ ·)))

/-- Tie-break used by pandas `Series.mode()[0]`: keep the candidate with the
strictly larger count, and on equal counts the smaller value (`mode()` sorts
the modes ascending and `[0]` takes the first). -/
def moreFrequent (l : List String) (best v : String) : String :=
  if l.count v > l.count best then v
  else if l.count v = l.count best ∧ v < best then v
  else best

/-- Embedding of pandas `Series.mode()[0]` over the present values: the most
frequent value, ties broken by the smallest; `none` on an empty list (where
the source's `[0]` indexing raises). -/
def modeFirst (l : List String) : Option String :=
  match l with
  | [] => none
  | x :: xs => some ((x :: xs).foldl (moreFrequent (x :: xs)) x)

/-- Columns of the raw CSV that the startup preprocessing touches: the
nullable `Age` column, the nullable `Embarked` column, and whether a `Cabin`
column is present.  All other columns pass through untouched. -/
structure RawTable where
  age : List (Option ℚ)
  embarked : List (Option String)
  hasCabin : Bool
  deriving DecidableEq, Repr

/-- The same columns after preprocessing. -/
structure CleanTable where
  age : List (Option ℚ)
  embarked : List (Option String)
  hasCabin : Bool
  deriving DecidableEq, Repr

/-- Embedding of `df["Age"] = df["Age"].fillna(df["Age"].median())`: when the
median is NaN (no present ages) `fillna` leaves every entry unchanged,
otherwise every missing entry becomes the median. -/
def fillAge (ages : List (Option ℚ)) : List (Option ℚ) :=
  match medianQ (ages.filterMap id) with
  | none => ages
  | some m => ages.map (fun a => some (a.getD m))

/-- Embedding of the module-level preprocessing of `backend/main.py` (the
spec's `load_and_clean()`): fill missing ages with the age median, fill
missing embarkation ports with `mode()[0]` (which raises on an all-null
column), and drop the `Cabin` column when present — so it is absent from the
result either way. -/
def load_and_clean (t : RawTable) : Except String CleanTable :=
  let age := fillAge t.age
  match modeFirst (t.embarked.filterMap id) with
  | none => Except.error "IndexError: mode of an all-null column is empty"
  | some m =>
      Except.ok { age := age
                , embarked := t.embarked.map (fun e => some (e.getD m))
                , hasCabin := false }

/-- Pydantic `ChatResponse` model: `image` and `code` default to `None`. -/
structure ChatResponse where
  text : String
  image : Option String := none
  code : Option String := none
  deriving DecidableEq, Repr

/-- Outcome of the `POST /chat` endpoint: an `HTTPException` with a status
code and detail, or a 200 response carrying a `ChatResponse`. -/
inductive ChatOutcome where
  | httpError (status : Nat) (detail : String)
  | success (resp : ChatResponse)
  deriving DecidableEq, Repr

/-- Embedding of the `POST /chat` handler, parametrised by the agent call
`runq` (the shared agent is baked in at startup).  The boolean in the result
records whether `run_query` was invoked.  The handler rejects a question
whose `strip()` is empty with a 400, and otherwise forwards only the text
and image of `run_query`'s result (`ChatResponse(text=..., image=...)`
leaves the `code` field at its `None` default). -/
def chat (runq : String → Response) (question : String) : ChatOutcome × Bool :=
  if pyStrip question = "" then
    (ChatOutcome.httpError 400 "Question cannot be empty", false)
  else
    let result := runq question
    (ChatOutcome.success { text := result.text, image := result.image }, true)

/-- Message of the `RuntimeError` raised when the API key is missing. -/
def groqKeyMissingMessage : String :=
  "GROQ_API_KEY not set! Get a free key at https://console.groq.com/keys "
    ++ "and add it to your .env file."

/-- Module initialisation of `backend/main.py` up to the API-key check:
`os.getenv` yields `none` when the variable is unset, and
`not os.getenv(...)` is also true for an empty string.  The `RuntimeError`
is raised before the FastAPI app or any endpoint is created, so on `error`
no endpoint is ever exposed. -/
def mainModuleInit (groqApiKey : Option String) : Except String Unit :=
  if groqApiKey.getD "" = "" then Except.error groqKeyMissingMessage
  else Except.ok ()

-- ─────────────────────────── frontend/app.py ───────────────────────────

/-- Module initialisation of `frontend/app.py` (the Remote-Mode UI): the
script never reads `GROQ_API_KEY`; it renders the page regardless of the
variable, since its only contact with the agent is over HTTP. -/
def remoteUIStartup (_groqApiKey : Option String) : Except String Unit :=
  Except.ok ()

/-- Modelled from the spec: the Embedded-Mode chat UI described in the spec
(section 4.5) belongs to this repository but its source file is not under
`src/`.  Per the spec it resolves the credential from the UI-framework
secret store first, falling back to the process environment, and halts with
a fixed instructional error before any chat affordance when neither yields
a credential. -/
def embeddedUIStartup (secretKey envKey : Option String) : Except String Unit :=
  match secretKey, envKey with
  | none, none =>
      Except.error "GROQ_API_KEY missing: add it to the secrets store or the environment"
  | some _, _ => Except.ok ()
  | none, some _ => Except.ok ()

/-- One entry of the Streamlit session chat history
(`st.session_state.messages`): a role, markdown content, and the optional
image and code attached to assistant turns. -/
structure ChatMsg where
  role : String
  content : String
  image : Option String := none
  code : Option String := none
  deriving DecidableEq, Repr

/-- Outcome of the `requests.post` call made by the Remote-Mode UI, as the
handler's `try/except` ladder distinguishes them: a decoded HTTP response,
a connection error, a client-side timeout, or any other exception (which
also covers failures while decoding a 200 response's body). -/
inductive TransportOutcome where
  | httpResponse (status : Nat) (text : Option String) (image : Option String)
      (code : Option String)
  | connectionError
  | timeout
  | otherError (msg : String)
  deriving DecidableEq, Repr

/-- Fixed remediation text shown on a connection failure. -/
def connectionErrorText : String :=
  "⚠️ Cannot connect to the backend. Make sure the FastAPI server is running:\n\n"
    ++ "```bash\nuvicorn backend.main:app --port 8000\n```"

/-- Fixed text shown on a client-side timeout. -/
def timeoutText : String :=
  "⚠️ Request timed out. The query may be too complex. Try a simpler question."

/-- Embedding of the chat-input handler of `frontend/app.py`: append the
user's turn to the session history, then append exactly one assistant turn
whose content depends on the transport outcome (answer on HTTP 200, status
message on non-200, fixed remediation texts on connection error and timeout,
generic message on any other exception). -/
def handle_prompt (messages : List ChatMsg) (prompt : String)
    (outcome : TransportOutcome) : List ChatMsg :=
  let withUser := messages ++ [{ role := "user", content := prompt }]
  match outcome with
  | .httpResponse status text image code =>
      if status = 200 then
        withUser ++ [{ role := "assistant"
                     , content := text.getD "No response received."
                     , image := image, code := code }]
      else
        withUser ++ [{ role := "assistant"
                     , content := "⚠️ Backend error (status " ++ toString status ++ ")" }]
  | .connectionError =>
      withUser ++ [{ role := "assistant", content := connectionErrorText }]
  | .timeout =>
      withUser ++ [{ role := "assistant", content := timeoutText }]
  | .otherError msg =>
      withUser ++ [{ role := "assistant", content := "⚠️ Unexpected error: " ++ msg }]

-- ─────────────────────────── helper lemmas ───────────────────────────

/-- Python's `strip()` returns the empty string exactly when the input is
empty or consists only of whitespace. -/
theorem pyStrip_eq_empty_iff (s : String) : pyStrip s = "" ↔ isBlank s = true := by
  unfold pyStrip isBlank
  constructor
  · intro h
    have h0 : ((s.toList.dropWhile isPySpace).reverse.dropWhile isPySpace).reverse
        = ([] : List Char) := by
      simpa using congrArg String.data h
    rw [List.reverse_eq_nil_iff, List.dropWhile_eq_nil_iff] at h0
    rw [List.all_eq_true]
    intro x hx
    have hsplit := List.takeWhile_append_dropWhile (p := isPySpace) (l := s.toList)
    rw [← hsplit] at hx
    rcases List.mem_append.mp hx with hx1 | hx2
    · exact List.mem_takeWhile_imp hx1
    · exact h0 x (List.mem_reverse.mpr hx2)
  · intro h
    have h1 : s.toList.dropWhile isPySpace = [] :=
      List.dropWhile_eq_nil_iff.mpr (fun x hx => (List.all_eq_true.mp h) x hx)
    rw [h1]
    rfl

-- ─────────────────────────── claim theorems ───────────────────────────

/-- C1: for every question and every exception raised inside the agent's
reasoning loop (model call, tool execution, or parsing — the whole `try`
block), `run_query` catches it and returns a normal response whose text is
the fixed apology template with the underlying error's message embedded,
and whose image and code fields are both absent; `run_query` is a total
function of the behaviour, so the fault never reaches the caller. -/
theorem C1_run_query_error_containment {Fig : Type} (render : List Fig → String)
    (captureFails : Bool) (msg : String) (figs figState : List Fig) :
    (run_query render captureFails (AgentBehavior.raises msg figs) figState).1.text =
      "I encountered an issue processing that query. Please try rephrasing. (Error: "
        ++ msg ++ ")" ∧
    (run_query render captureFails (AgentBehavior.raises msg figs) figState).1.image
      = none ∧
    (run_query render captureFails (AgentBehavior.raises msg figs) figState).1.code
      = none :=
  ⟨rfl, rfl, rfl⟩

/-- C2: a `POST /chat` request whose question is empty or all whitespace is
answered with HTTP 400 and detail "Question cannot be empty" without
invoking the agent; for every other question `run_query` is invoked and its
text and image are returned. -/
theorem C2_empty_question_rejected (runq : String → Response) (q : String) :
    chat runq q =
      if isBlank q then
        (ChatOutcome.httpError 400 "Question cannot be empty", false)
      else
        (ChatOutcome.success { text := (runq q).text, image := (runq q).image }, true) := by
  unfold chat
  by_cases h : isBlank q = true
  · rw [if_pos ((pyStrip_eq_empty_iff q).mpr h), if_pos h]
  · rw [if_neg (fun hc => h ((pyStrip_eq_empty_iff q).mp hc)), if_neg h]

/-- C4: a chart produced during one call never appears in a later call's
response: `run_query`'s whole result is independent of the leftover figure
state (which is cleared at the start of every call); the image, when
present, renders only figures created by the current call; a completed run
that left figures open always returns an empty figure state; and in any
sequence of calls each response is a pure function of its own call's
behaviour alone. -/
theorem C4_figure_isolation {Fig : Type} (render : List Fig → String)
    (captureFails : Bool) (beh : AgentBehavior Fig) (st st' : List Fig) :
    run_query render captureFails beh st = run_query render captureFails beh st' ∧
    ((run_query render captureFails beh st).1.image = none ∨
      (run_query render captureFails beh st).1.image = some (render beh.figsCreated)) ∧
    (∀ (result : AgentResult) (f : Fig) (fs : List Fig),
      (run_query render captureFails (AgentBehavior.returns result (f :: fs)) st).2 = []) ∧
    (∀ behs : List (AgentBehavior Fig × Bool),
      runSeq render behs st = behs.map (fun p => (run_query render p.2 p.1 []).1)) := by
  refine ⟨rfl, ?_, fun result f fs => rfl, ?_⟩
  · cases beh with
    | raises msg figs => exact Or.inl rfl
    | returns result figs =>
        cases figs with
        | nil => exact Or.inl rfl
        | cons f fs =>
            cases captureFails with
            | true => exact Or.inl rfl
            | false => exact Or.inr rfl
  · intro behs
    induction behs generalizing st with
    | nil => rfl
    | cons p rest ih =>
        cases p with
        | mk b cf =>
            show (run_query render cf b st).1 ::
                runSeq render rest (run_query render cf b st).2
              = (run_query render cf b []).1 ::
                rest.map (fun p => (run_query render p.2 p.1 []).1)
            rw [ih]
            rfl

/-- C5: on a successful run the response's code field is the newline-join,
in execution order, of exactly the code snippets the agent executed (the
inputs of the `python_repl_ast` tool), and is absent when no code was
executed. -/
theorem C5_generated_code_aggregation {Fig : Type} (render : List Fig → String)
    (captureFails : Bool) (result : AgentResult) (figs figState : List Fig) :
    (run_query render captureFails (AgentBehavior.returns result figs) figState).1.code =
      if executedSnippets result.intermediate_steps = [] then none
      else some (String.intercalate "\n" (executedSnippets result.intermediate_steps)) := by
  have hcode :
      (run_query render captureFails (AgentBehavior.returns result figs) figState).1.code
        = extractCode result.intermediate_steps := by
    cases figs <;> rfl
  rw [hcode]
  cases hb : executedSnippets result.intermediate_steps with
  | nil => simp [extractCode, hb]
  | cons c cs => simp [extractCode, hb]

/-- C8: when the agent run succeeds but converting the current figure to an
encoded image fails, the failure is swallowed: the textual answer is still
returned, the image field is absent, and the figure state is released
whether or not the capture failed. -/
theorem C8_capture_failure_swallowed {Fig : Type} (render : List Fig → String)
    (result : AgentResult) (f : Fig) (fs figState : List Fig) :
    (run_query render true (AgentBehavior.returns result (f :: fs)) figState).1.text =
      result.output.getD "I couldn't generate an answer." ∧
    (run_query render true (AgentBehavior.returns result (f :: fs)) figState).1.image
      = none ∧
    (∀ captureFails : Bool,
      (run_query render captureFails
        (AgentBehavior.returns result (f :: fs)) figState).2 = []) :=
  ⟨rfl, rfl, fun _ => rfl⟩

/-- C3: for every input table whose age and embarkation columns each have at
least one present value, the startup preprocessing succeeds and its result
has no missing value in the age column, no missing value in the embarkation
column, and no cabin column. -/
theorem C3_preprocessing_invariant (t : RawTable)
    (hage : t.age.filterMap id ≠ []) (hemb : t.embarked.filterMap id ≠ []) :
    ∃ c : CleanTable, load_and_clean t = Except.ok c ∧
      c.age.all Option.isSome = true ∧
      c.embarked.all Option.isSome = true ∧
      c.hasCabin = false := by
  obtain ⟨m, hm⟩ : ∃ m, modeFirst (t.embarked.filterMap id) = some m := by
    rcases hx : t.embarked.filterMap id with _ | ⟨x, xs⟩
    · exact absurd hx hemb
    · exact ⟨_, by rw [modeFirst]⟩
  obtain ⟨md, hmd⟩ : ∃ md, medianQ (t.age.filterMap id) = some md := by
    rcases hx : t.age.filterMap id with _ | ⟨a, as⟩
    · exact absurd hx hage
    · exact ⟨_, by rw [medianQ]; rfl⟩
  have hfill : fillAge t.age = t.age.map (fun a => some (a.getD md)) := by
    rw [fillAge, hmd]
  refine ⟨{ age := fillAge t.age
          , embarked := t.embarked.map (fun e => some (e.getD m))
          , hasCabin := false }, ?_, ?_, ?_, rfl⟩
  · rw [load_and_clean, hm]
  · rw [hfill]
    simp [List.all_eq_true]
  · simp [List.all_eq_true]

/-- C6: for every question that reaches the agent, the `POST /chat` response
payload carries exactly the text and image of `run_query`'s result, and its
code field is `none` — the generated-code field produced internally is never
exposed to remote callers. -/
theorem C6_code_field_not_exposed (runq : String → Response) (q : String)
    (h : isBlank q = false) :
    (chat runq q).1 =
      ChatOutcome.success
        { text := (runq q).text, image := (runq q).image, code := none } := by
  unfold chat
  rw [if_neg (fun hc => by
    rw [(pyStrip_eq_empty_iff q).mp hc] at h
    exact Bool.true_eq_false.mp h)]

/-- C7: every missing age is filled with the median of the present ages —
computed by the standard even/odd rule on a sorted permutation of the
present values only — and in particular the ages `[20, 30, absent, 40]`
become `[20, 30, 30, 40]`. -/
theorem C7_median_fill (ages : List (Option ℚ)) (h : ages.filterMap id ≠ []) :
    (∃ s : List ℚ, (ages.filterMap id).Perm s ∧ s.Sorted (· ≤ ·) ∧
      fillAge ages = ages.map (fun a => some (a.getD (medianRule s)))) ∧
    fillAge [some 20, some 30, none, some 40] = [some 20, some 30, some 30, some 40] := by
  constructor
  · refine ⟨(ages.filterMap id).insertionSort (· ≤ ·),
      (List.perm_insertionSort _ _).symm, List.sorted_insertionSort _ _, ?_⟩
    have hne : (ages.filterMap id).isEmpty = false := by
      rcases hx : ages.filterMap id with _ | ⟨a, as⟩
      · exact absurd hx h
      · rfl
    have hmed : medianQ (ages.filterMap id)
        = some (medianRule ((ages.filterMap id).insertionSort (· ≤ ·))) := by
      rw [medianQ, hne]
      rfl
    rw [fillAge, hmed]
  · decide

/-- C9 counterexample: with `GROQ_API_KEY` absent, the Remote-Mode UI's
module script starts successfully — it performs no key check — so it is not
the case that every entry point of the system fails fatally at startup. -/
theorem C9_counterexample :
    remoteUIStartup none = Except.ok () ∧
    mainModuleInit none = Except.error groqKeyMissingMessage :=
  ⟨rfl, rfl⟩

/-- C9 amended: with `GROQ_API_KEY` absent, the HTTP service's module
initialisation raises (before any endpoint is created) and the Embedded-Mode
UI halts before showing any chat affordance, but the Remote-Mode UI performs
no key check and starts regardless of the variable. -/
theorem C9_amended_startup_behavior :
    mainModuleInit none = Except.error groqKeyMissingMessage ∧
    (∃ msg, embeddedUIStartup none none = Except.error msg) ∧
    (∀ k : Option String, remoteUIStartup k = Except.ok ()) :=
  ⟨rfl, ⟨_, rfl⟩, fun _ => rfl⟩

/-- C10: in the Remote-Mode chat UI, every submitted prompt appends exactly
one user turn followed by exactly one assistant turn to the chat history, on
every outcome branch: HTTP 200, non-200 status, connection failure, client
timeout, and any other exception. -/
theorem C10_one_user_one_assistant_turn (messages : List ChatMsg) (prompt : String)
    (outcome : TransportOutcome) :
    ∃ reply : ChatMsg, reply.role = "assistant" ∧
      handle_prompt messages prompt outcome =
        messages ++ [{ role := "user", content := prompt }, reply] := by
  cases outcome with
  | httpResponse status text image code =>
      by_cases h : status = 200
      · exact ⟨{ role := "assistant", content := text.getD "No response received."
               , image := image, code := code }, rfl,
          by simp [handle_prompt, h]⟩
      · exact ⟨{ role := "assistant"
               , content := "⚠️ Backend error (status " ++ toString status ++ ")" }, rfl,
          by simp [handle_prompt, h]⟩
  | connectionError =>
      exact ⟨{ role := "assistant", content := connectionErrorText }, rfl,
        by simp [handle_prompt]⟩
  | timeout =>
      exact ⟨{ role := "assistant", content := timeoutText }, rfl,
        by simp [handle_prompt]⟩
  | otherError msg =>
      exact ⟨{ role := "assistant", content := "⚠️ Unexpected error: " ++ msg }, rfl,
        by simp [handle_prompt]⟩

-- ─────────────────────────── witnesses ───────────────────────────

/-- Witness for C3: at a concrete two-row table with one missing age and one
missing port, preprocessing succeeds with no missing values and no cabin. -/
theorem C3_preprocessing_invariant_witness :
    (([some (22 : ℚ), none] : List (Option ℚ)).filterMap id ≠ []) ∧
    (([some "S", none] : List (Option String)).filterMap id ≠ []) ∧
    (∃ c : CleanTable,
      load_and_clean
        { age := [some (22 : ℚ), none], embarked := [some "S", none], hasCabin := true }
        = Except.ok c ∧
      c.age.all Option.isSome = true ∧
      c.embarked.all Option.isSome = true ∧
      c.hasCabin = false) :=
  ⟨by decide, by decide,
    C3_preprocessing_invariant
      { age := [some (22 : ℚ), none], embarked := [some "S", none], hasCabin := true }
      (by decide) (by decide)⟩

/-- Witness for C6: a concrete non-blank question whose agent result carries
a code field; the endpoint's payload drops it. -/
theorem C6_code_field_not_exposed_witness :
    isBlank "How many rows?" = false ∧
    (chat (fun _ => { text := "891", image := some "png", code := some "len(df)" })
      "How many rows?").1 =
      ChatOutcome.success { text := "891", image := some "png", code := none } :=
  ⟨by decide,
    C6_code_field_not_exposed
      (fun _ => { text := "891", image := some "png", code := some "len(df)" })
      "How many rows?" (by decide)⟩

/-- Witness for C7: the synthetic age column `[20, 30, absent, 40]`. -/
theorem C7_median_fill_witness :
    (([some (20 : ℚ), some 30, none, some 40] : List (Option ℚ)).filterMap id ≠ []) ∧
    ((∃ s : List ℚ,
        (([some (20 : ℚ), some 30, none, some 40] : List (Option ℚ)).filterMap id).Perm s ∧
        s.Sorted (· ≤ ·) ∧
        fillAge [some (20 : ℚ), some 30, none, some 40] =
          ([some (20 : ℚ), some 30, none, some 40] : List (Option ℚ)).map
            (fun a => some (a.getD (medianRule s)))) ∧
      fillAge [some 20, some 30, none, some 40] = [some 20, some 30, some 30, some 40]) :=
  ⟨by decide, C7_median_fill [some (20 : ℚ), some 30, none, some 40] (by decide)⟩
